import Mathlib

/-!
Shallow embedding of `scripts/create_final_csv.py` (Super_Store_Sales).

The script loads a flat CSV relation, coerces the two date columns with
`pd.to_datetime(..., errors='coerce')`, and then builds four output tables
in sequence: a customer dimension and a product dimension (projection plus
`drop_duplicates(subset=[key])`, first occurrence kept), a ship-mode
dimension (`unique()` followed by `dropna()`), and a fact table (column
selection, 1:1 rename, and `strftime('%Y-%m-%d')` on the two date columns).

A relation is modelled as a column-name list plus rows given as association
lists from column name to cell; cells are null (NaN/NaT), strings, or
calendar dates (the result of a successful `to_datetime` coercion).
-/

set_option autoImplicit false

namespace SuperStore

/-- A scalar cell of the relation: missing (NaN/NaT), a string, or a
coerced calendar date. -/
inductive Cell where
  | null
  | str (s : String)
  | date (y m d : Nat)
  deriving DecidableEq, Repr

/-- A row: an association list from column name to cell value. -/
abbrev Row := List (String × Cell)

/-- Value of a row at a column (pandas row indexing); absent columns read
as null, matching a rectangular frame where the cell was never set. -/
def Row.get (r : Row) (c : String) : Cell :=
  match r.find? (fun p => p.1 == c) with
  | some p => p.2
  | none => Cell.null

/-- An in-memory relation: ordered column names and ordered rows. -/
structure DataFrame where
  cols : List String
  rows : List Row
  deriving DecidableEq, Repr

/-- First-appearance deduplication of a value list, skipping values already
seen: the semantics of `pandas.Series.unique()` (which keeps nulls). -/
def uniqueFirst : List Cell → List Cell → List Cell
  | [], _ => []
  | v :: vs, seen =>
    if v ∈ seen then uniqueFirst vs seen
    else v :: uniqueFirst vs (v :: seen)

/-- `drop_duplicates(subset=[k])` with the default `keep='first'`: iterate
rows in order and keep a row only if its key-column value was not seen
before.  pandas treats NaN as equal to NaN here, and so does `Cell.null`. -/
def dropDuplicatesBy (k : String) : List Row → List Cell → List Row
  | [], _ => []
  | r :: rs, seen =>
    if r.get k ∈ seen then dropDuplicatesBy k rs seen
    else r :: dropDuplicatesBy k rs (r.get k :: seen)

/-- Column projection `df[cols]` applied to one row. -/
def selectCols (cols : List String) (r : Row) : Row :=
  cols.map (fun c => (c, r.get c))

/-- Outcome of one output-table construction.  The script prints a fixed
sentence for the dimension tables ("some required columns are missing")
and a message listing `missing_cols` for the fact table; the constructor
distinguishes the two shapes of message. -/
inductive TableError where
  | genericMissing (table : String)
  | missingCols (cols : List String)
  deriving DecidableEq, Repr

/-- Whether a table error message names the missing columns. -/
def TableError.namesCols : TableError → Bool
  | TableError.missingCols _ => true
  | TableError.genericMissing _ => false

/-- `customer_cols` from the script. -/
def customer_cols : List String :=
  ["Customer ID", "Customer Name", "Segment", "Country", "City", "State",
   "Postal Code", "Region"]

/-- `product_cols` from the script. -/
def product_cols : List String :=
  ["Product ID", "Product Name", "Category", "Sub-Category"]

/-- Section 3.1 of the script: `df[customer_cols].drop_duplicates(subset=['Customer ID'])`,
guarded by `all(col in df.columns for col in customer_cols)`; on failure the
script prints a generic message that does not name the missing columns. -/
def customers_df (df : DataFrame) : Except TableError DataFrame :=
  if customer_cols.all (fun c => df.cols.contains c) then
    Except.ok ⟨customer_cols,
      dropDuplicatesBy "Customer ID" (df.rows.map (selectCols customer_cols)) []⟩
  else
    Except.error (TableError.genericMissing "customers")

/-- Section 3.2 of the script: `df[product_cols].drop_duplicates(subset=['Product ID'])`,
guarded the same way, with the same generic failure message. -/
def products_df (df : DataFrame) : Except TableError DataFrame :=
  if product_cols.all (fun c => df.cols.contains c) then
    Except.ok ⟨product_cols,
      dropDuplicatesBy "Product ID" (df.rows.map (selectCols product_cols)) []⟩
  else
    Except.error (TableError.genericMissing "products")

/-- Section 3.3 of the script: `pd.DataFrame(df['Ship Mode'].unique(),
columns=['Ship Mode']).dropna()`. -/
def ship_modes_df (df : DataFrame) : Except TableError DataFrame :=
  if df.cols.contains "Ship Mode" then
    Except.ok ⟨["Ship Mode"],
      ((uniqueFirst (df.rows.map (fun r => r.get "Ship Mode")) []).filter
        (fun v => !(v == Cell.null))).map (fun v => [("Ship Mode", v)])⟩
  else
    Except.error (TableError.genericMissing "DimShipMode")

/-- `fact_sales_sql_columns` from the script. -/
def fact_sales_sql_columns : List String :=
  ["OrderID", "CustomerID", "ProductID", "OrderDate", "ShipDate", "ShipMode",
   "Sales", "Order_Year", "Order_Month", "Order_Day", "Order_Weekday",
   "Shipping_Delay", "Log_Sales", "Scaled_Sales"]

/-- `fact_sales_df_columns` from the script. -/
def fact_sales_df_columns : List String :=
  ["Order ID", "Customer ID", "Product ID", "Order Date", "Ship Date", "Ship Mode",
   "Sales", "Order_Year", "Order_Month", "Order_Day", "Order_Weekday",
   "Shipping_Delay", "Log_Sales", "Scaled_Sales"]

/-- Zero-pad a number to two digits, as `%m` / `%d` in `strftime`. -/
def pad2 (n : Nat) : String :=
  if n < 10 then "0" ++ toString n else toString n

/-- `strftime('%Y-%m-%d')` on a calendar date inside the pandas `Timestamp`
range (years always four digits there). -/
def formatDate (y m d : Nat) : String :=
  toString y ++ "-" ++ pad2 m ++ "-" ++ pad2 d

/-- `strftime` applied to one cell of a datetime column: dates are
serialized, NaT (null) stays missing (pandas renders it as NaN). -/
def formatDateCell : Cell → Cell
  | Cell.date y m d => Cell.str (formatDate y m d)
  | c => c

/-- One fact-table row: select `fact_sales_df_columns` in order, rename 1:1
to `fact_sales_sql_columns`, then serialize the two date columns. -/
def factRow (r : Row) : Row :=
  ((fact_sales_df_columns.zip fact_sales_sql_columns).map
      (fun p => (p.2, r.get p.1))).map
    (fun p => if p.1 = "OrderDate" ∨ p.1 = "ShipDate"
              then (p.1, formatDateCell p.2) else p)

/-- Section 4 of the script: `missing_cols = [col for col in
fact_sales_df_columns if col not in df.columns]`; on failure the message
lists exactly `missing_cols`; on success select, rename, format dates. -/
def fact_sales_df (df : DataFrame) : Except TableError DataFrame :=
  let missing := fact_sales_df_columns.filter (fun c => !(df.cols.contains c))
  if missing.isEmpty then
    Except.ok ⟨fact_sales_sql_columns, df.rows.map factRow⟩
  else
    Except.error (TableError.missingCols missing)

/-- Days in a month, with Gregorian leap years, as validated by
`pd.to_datetime`. -/
def daysInMonth (y m : Nat) : Nat :=
  if m = 2 then
    (if (y % 4 = 0 ∧ y % 100 ≠ 0) ∨ y % 400 = 0 then 29 else 28)
  else if m = 4 ∨ m = 6 ∨ m = 9 ∨ m = 11 then 30 else 31

/-- Split a character list on a separator character (the semantics of
`String.splitOn` for a one-character separator). -/
def splitOnChar (sep : Char) : List Char → List (List Char)
  | [] => [[]]
  | c :: cs =>
    if c = sep then [] :: splitOnChar sep cs
    else
      match splitOnChar sep cs with
      | [] => [[c]]
      | g :: gs => (c :: g) :: gs

/-- A nonempty all-digit character group read as a number. -/
def digitsToNat? (cs : List Char) : Option Nat :=
  if cs ≠ [] ∧ cs.all Char.isDigit then
    some (cs.foldl (fun n c => n * 10 + (c.toNat - 48)) 0)
  else none

/-- `pd.to_datetime` on one ISO-format string: year-month-day separated by
hyphens, a real calendar date, inside the `datetime64[ns]` `Timestamp`
range (1678..2261); anything else fails to parse.  (pandas also accepts
other textual formats; this models the ISO subset the pipeline emits and
consumes.) -/
def parseDateStr (s : String) : Option (Nat × Nat × Nat) :=
  match (splitOnChar (Char.ofNat 45) s.toList).map digitsToNat? with
  | [some y, some m, some d] =>
    if 1 ≤ m ∧ m ≤ 12 ∧ 1 ≤ d ∧ d ≤ daysInMonth y m ∧ 1678 ≤ y ∧ y ≤ 2261
    then some (y, m, d) else none
  | _ => none

/-- `pd.to_datetime(value, errors='coerce')` on one cell: strings that
parse become dates, failures and NaN become NaT (null), dates stay. -/
def coerceCell : Cell → Cell
  | Cell.str s =>
    match parseDateStr s with
    | some (y, m, d) => Cell.date y m d
    | none => Cell.null
  | Cell.date y m d => Cell.date y m d
  | Cell.null => Cell.null

/-- `if c in df.columns: df[c] = pd.to_datetime(df[c], errors='coerce')`. -/
def coerceCol (c : String) (df : DataFrame) : DataFrame :=
  if df.cols.contains c then
    ⟨df.cols,
     df.rows.map (fun r =>
       r.map (fun p => if p.1 = c then (p.1, coerceCell p.2) else p))⟩
  else df

/-- `df[c].isnull().any()`; accessing a column absent from the frame raises
`KeyError`, modelled by the error branch. -/
def colIsnullAny (df : DataFrame) (c : String) : Except Unit Bool :=
  if df.cols.contains c then
    Except.ok (df.rows.any (fun r => r.get c == Cell.null))
  else Except.error ()

/-- The fixed warning sentence the script prints when the null check on the
date columns fires; it carries no per-column or per-row counts. -/
def coercionWarning : String :=
  "Warning: There are null values (NaT) in the date columns after loading/conversion."

/-- Result of the load-and-coerce phase: either the run exits (the generic
`except Exception` handler around loading calls `exit()`), or the coerced
relation is returned together with the optional warning. -/
inductive LoadResult where
  | exited
  | loaded (df : DataFrame) (warning : Option String)
  deriving DecidableEq, Repr

/-- Section 2 of the script after `read_csv`: coerce both date columns
(each guarded by column presence), then evaluate
`df['Order Date'].isnull().any() or df['Ship Date'].isnull().any()` —
a short-circuiting `or`, so `df['Ship Date']` is only accessed when the
left operand is false.  A `KeyError` from either access is caught by the
surrounding `except Exception` handler, which exits the run. -/
def loadCheck (df : DataFrame) : LoadResult :=
  let df2 := coerceCol "Ship Date" (coerceCol "Order Date" df)
  match colIsnullAny df2 "Order Date" with
  | Except.error _ => LoadResult.exited
  | Except.ok true => LoadResult.loaded df2 (some coercionWarning)
  | Except.ok false =>
    match colIsnullAny df2 "Ship Date" with
    | Except.error _ => LoadResult.exited
    | Except.ok true => LoadResult.loaded df2 (some coercionWarning)
    | Except.ok false => LoadResult.loaded df2 none

instance {α β : Type} [DecidableEq α] [DecidableEq β] : DecidableEq (Except α β) :=
  fun a b =>
    match a, b with
    | Except.ok x, Except.ok y =>
      if h : x = y then isTrue (by rw [h]) else isFalse (by simpa using h)
    | Except.error x, Except.error y =>
      if h : x = y then isTrue (by rw [h]) else isFalse (by simpa using h)
    | Except.ok _, Except.error _ => isFalse (by simp)
    | Except.error _, Except.ok _ => isFalse (by simp)

/-- Observable outcome of a whole run on an in-memory relation: either the
process exited during loading, or all four table constructions were
attempted, each succeeding or failing independently. -/
inductive ScriptResult where
  | exited
  | finished (customers products shipModes factSales : Except TableError DataFrame)
             (warning : Option String)
  deriving DecidableEq, Repr

/-- The whole script on a loaded raw relation: load-and-coerce, then the
four independent table constructions in source order. -/
def runScript (df : DataFrame) : ScriptResult :=
  match loadCheck df with
  | LoadResult.exited => ScriptResult.exited
  | LoadResult.loaded df2 w =>
    ScriptResult.finished (customers_df df2) (products_df df2)
      (ship_modes_df df2) (fact_sales_df df2) w

/-! ### Generic lemmas about the embedded operations -/

theorem uniqueFirst_mem (v : Cell) (l : List Cell) :
    ∀ seen : List Cell, v ∈ uniqueFirst l seen ↔ v ∈ l ∧ v ∉ seen := by
  induction l with
  | nil =>
    intro seen
    simp [uniqueFirst]
  | cons w ws ih =>
    intro seen
    by_cases hw : w ∈ seen
    · rw [uniqueFirst, if_pos hw, ih seen]
      constructor
      · rintro ⟨h1, h2⟩
        exact ⟨List.mem_cons_of_mem _ h1, h2⟩
      · rintro ⟨h1, h2⟩
        rcases List.mem_cons.mp h1 with h1 | h1
        · exact absurd (h1 ▸ hw) h2
        · exact ⟨h1, h2⟩
    · rw [uniqueFirst, if_neg hw]
      constructor
      · intro h
        rcases List.mem_cons.mp h with h | h
        · subst h
          exact ⟨List.mem_cons_self _ _, hw⟩
        · obtain ⟨h1, h2⟩ := (ih _).mp h
          exact ⟨List.mem_cons_of_mem _ h1,
                 fun hs => h2 (List.mem_cons_of_mem _ hs)⟩
      · rintro ⟨h1, h2⟩
        by_cases hvw : v = w
        · exact hvw ▸ List.mem_cons_self _ _
        · rcases List.mem_cons.mp h1 with h1 | h1
          · exact absurd h1 hvw
          · refine List.mem_cons_of_mem _ ((ih _).mpr ⟨h1, ?_⟩)
            intro hs
            rcases List.mem_cons.mp hs with h | h
            · exact hvw h
            · exact h2 h

theorem uniqueFirst_nodup (l : List Cell) :
    ∀ seen : List Cell, (uniqueFirst l seen).Nodup := by
  induction l with
  | nil =>
    intro seen
    simp [uniqueFirst]
  | cons w ws ih =>
    intro seen
    by_cases hw : w ∈ seen
    · rw [uniqueFirst, if_pos hw]
      exact ih seen
    · rw [uniqueFirst, if_neg hw]
      refine List.nodup_cons.mpr ⟨?_, ih _⟩
      intro hmem
      exact ((uniqueFirst_mem w ws _).mp hmem).2 (List.mem_cons_self _ _)

theorem uniqueFirst_indexOf_lt (v1 v2 : Cell) (l : List Cell) :
    ∀ seen : List Cell, v1 ∈ uniqueFirst l seen → v2 ∈ uniqueFirst l seen →
      l.indexOf v1 < l.indexOf v2 →
      (uniqueFirst l seen).indexOf v1 < (uniqueFirst l seen).indexOf v2 := by
  induction l with
  | nil =>
    intro seen h1
    simp [uniqueFirst] at h1
  | cons w ws ih =>
    intro seen h1 h2 hlt
    by_cases hw : w ∈ seen
    · rw [uniqueFirst, if_pos hw] at h1 h2 ⊢
      have hv1 : w ≠ v1 := fun h => ((uniqueFirst_mem v1 ws seen).mp h1).2 (h ▸ hw)
      have hv2 : w ≠ v2 := fun h => ((uniqueFirst_mem v2 ws seen).mp h2).2 (h ▸ hw)
      rw [List.indexOf_cons_ne _ hv1, List.indexOf_cons_ne _ hv2] at hlt
      exact ih seen h1 h2 (Nat.succ_lt_succ_iff.mp hlt)
    · rw [uniqueFirst, if_neg hw] at h1 h2 ⊢
      by_cases e2 : v2 = w
      · rw [e2, List.indexOf_cons_self] at hlt
        exact absurd hlt (Nat.not_lt_zero _)
      · have h2' : v2 ∈ uniqueFirst ws (w :: seen) := by
          rcases List.mem_cons.mp h2 with h | h
          · exact absurd h e2
          · exact h
        have hw2 : w ≠ v2 := fun h => e2 h.symm
        by_cases e1 : v1 = w
        · rw [e1, List.indexOf_cons_self, List.indexOf_cons_ne _ hw2]
          exact Nat.succ_pos _
        · have h1' : v1 ∈ uniqueFirst ws (w :: seen) := by
            rcases List.mem_cons.mp h1 with h | h
            · exact absurd h e1
            · exact h
          have hw1 : w ≠ v1 := fun h => e1 h.symm
          rw [List.indexOf_cons_ne _ hw1, List.indexOf_cons_ne _ hw2] at hlt
          rw [List.indexOf_cons_ne _ hw1, List.indexOf_cons_ne _ hw2]
          exact Nat.succ_lt_succ (ih (w :: seen) h1' h2' (Nat.succ_lt_succ_iff.mp hlt))

theorem filter_indexOf_lt (p : Cell → Bool) (v1 v2 : Cell) (l : List Cell) :
    l.Nodup → v1 ∈ l.filter p → v2 ∈ l.filter p →
      l.indexOf v1 < l.indexOf v2 →
      (l.filter p).indexOf v1 < (l.filter p).indexOf v2 := by
  induction l with
  | nil =>
    intro _ h1
    simp at h1
  | cons w ws ih =>
    intro hnd h1 h2 hlt
    obtain ⟨hwn, hnd'⟩ := List.nodup_cons.mp hnd
    by_cases hpw : p w = true
    · rw [List.filter_cons, if_pos hpw] at h1 h2 ⊢
      by_cases e2 : v2 = w
      · rw [e2, List.indexOf_cons_self] at hlt
        exact absurd hlt (Nat.not_lt_zero _)
      · have h2' : v2 ∈ ws.filter p := by
          rcases List.mem_cons.mp h2 with h | h
          · exact absurd h e2
          · exact h
        have hw2 : w ≠ v2 := fun h => e2 h.symm
        by_cases e1 : v1 = w
        · rw [e1, List.indexOf_cons_self, List.indexOf_cons_ne _ hw2]
          exact Nat.succ_pos _
        · have h1' : v1 ∈ ws.filter p := by
            rcases List.mem_cons.mp h1 with h | h
            · exact absurd h e1
            · exact h
          have hw1 : w ≠ v1 := fun h => e1 h.symm
          rw [List.indexOf_cons_ne _ hw1, List.indexOf_cons_ne _ hw2] at hlt
          rw [List.indexOf_cons_ne _ hw1, List.indexOf_cons_ne _ hw2]
          exact Nat.succ_lt_succ (ih hnd' h1' h2' (Nat.succ_lt_succ_iff.mp hlt))
    · rw [List.filter_cons, if_neg hpw] at h1 h2 ⊢
      have hw1 : w ≠ v1 := fun h =>
        hwn (h.symm ▸ List.mem_of_mem_filter h1)
      have hw2 : w ≠ v2 := fun h =>
        hwn (h.symm ▸ List.mem_of_mem_filter h2)
      rw [List.indexOf_cons_ne _ hw1, List.indexOf_cons_ne _ hw2] at hlt
      exact ih hnd' h1 h2 (Nat.succ_lt_succ_iff.mp hlt)

theorem dropDuplicatesBy_map_get (k : String) (rs : List Row) :
    ∀ seen : List Cell, (dropDuplicatesBy k rs seen).map (fun r => Row.get r k)
      = uniqueFirst (rs.map (fun r => Row.get r k)) seen := by
  induction rs with
  | nil =>
    intro seen
    rfl
  | cons r rest ih =>
    intro seen
    by_cases h : Row.get r k ∈ seen
    · simp only [dropDuplicatesBy, uniqueFirst, List.map_cons, if_pos h, ih]
    · simp only [dropDuplicatesBy, uniqueFirst, List.map_cons, if_neg h, ih]

theorem dropDuplicatesBy_first (k : String) (rs : List Row) :
    ∀ (seen : List Cell) (r : Row), r ∈ dropDuplicatesBy k rs seen →
      Row.get r k ∉ seen ∧
      rs.find? (fun s => Row.get s k == Row.get r k) = some r := by
  induction rs with
  | nil =>
    intro seen r h
    simp [dropDuplicatesBy] at h
  | cons s rest ih =>
    intro seen r h
    by_cases hs : Row.get s k ∈ seen
    · rw [dropDuplicatesBy, if_pos hs] at h
      obtain ⟨h1, h2⟩ := ih seen r h
      have hne : Row.get s k ≠ Row.get r k := fun he => h1 (he ▸ hs)
      exact ⟨h1, by rw [List.find?_cons_of_neg _ (by simpa using hne), h2]⟩
    · rw [dropDuplicatesBy, if_neg hs] at h
      rcases List.mem_cons.mp h with e | h'
      · subst e
        exact ⟨hs, List.find?_cons_of_pos _ (beq_self_eq_true _)⟩
      · obtain ⟨h1, h2⟩ := ih _ r h'
        have hne : Row.get s k ≠ Row.get r k :=
          fun he => h1 (by rw [← he]; exact List.mem_cons_self _ _)
        refine ⟨fun hm => h1 (List.mem_cons_of_mem _ hm), ?_⟩
        rw [List.find?_cons_of_neg _ (by simpa using hne), h2]

theorem Row.get_cons (a : String) (b : Cell) (t : Row) (c : String) :
    Row.get ((a, b) :: t) c = if a = c then b else Row.get t c := by
  by_cases h : a = c
  · rw [if_pos h]
    unfold Row.get
    rw [List.find?_cons_of_pos _ (by simpa using h)]
  · rw [if_neg h]
    unfold Row.get
    rw [List.find?_cons_of_neg _ (by simpa using h)]

theorem selectCols_get (r : Row) (c : String) (cols : List String) :
    c ∈ cols → Row.get (selectCols cols r) c = Row.get r c := by
  induction cols with
  | nil =>
    intro hc
    cases hc
  | cons c0 cs ih =>
    intro hc
    by_cases h : c0 = c
    · subst h
      simp [selectCols, Row.get_cons]
    · rcases List.mem_cons.mp hc with e | h'
      · exact absurd e.symm h
      · simpa [selectCols, Row.get_cons, h] using ih h'

theorem coerceRow_get (c : String) (r : Row) (c2 : String) :
    Row.get (r.map (fun p => if p.1 = c then (p.1, coerceCell p.2) else p)) c2
      = if c2 = c then coerceCell (Row.get r c2) else Row.get r c2 := by
  induction r with
  | nil =>
    by_cases h : c2 = c <;> simp [Row.get, h, coerceCell]
  | cons p t ih =>
    obtain ⟨a, b⟩ := p
    by_cases hac : a = c
    · subst hac
      by_cases h2 : c2 = a
      · subst h2
        simp [Row.get_cons, ih]
      · simp [Row.get_cons, h2, show a ≠ c2 from fun h => h2 h.symm, ih]
    · by_cases h2 : c2 = a
      · subst h2
        simp [Row.get_cons, hac, ih]
      · simp [Row.get_cons, hac, h2, show a ≠ c2 from fun h => h2 h.symm, ih]

theorem find?_eq_some_of_unique (p : Row → Bool) (l : List Row) (a : Row) :
    a ∈ l → p a = true → (∀ b ∈ l, p b = true → b = a) →
      l.find? p = some a := by
  induction l with
  | nil =>
    intro ha
    cases ha
  | cons x t ih =>
    intro ha hpa huniq
    by_cases hx : p x = true
    · have e : x = a := huniq x (List.mem_cons_self _ _) hx
      subst e
      exact List.find?_cons_of_pos _ hx
    · have hxa : a ≠ x := fun e => hx (e ▸ hpa)
      rcases List.mem_cons.mp ha with e | h'
      · exact absurd e hxa
      · rw [List.find?_cons_of_neg _ hx]
        exact ih h' hpa (fun b hb hpb => huniq b (List.mem_cons_of_mem _ hb) hpb)

theorem indexOf_eq_of_getElem? (l : List Cell) :
    l.Nodup → ∀ (i : Nat) (v : Cell), l[i]? = some v → l.indexOf v = i := by
  induction l with
  | nil =>
    intro _ i v h
    simp at h
  | cons a t ih =>
    intro hnd i v h
    obtain ⟨ha, hnd2⟩ := List.nodup_cons.mp hnd
    cases i with
    | zero =>
      have hav : a = v := by simpa using h
      rw [← hav]
      exact List.indexOf_cons_self a t
    | succ n =>
      have h2 : t[n]? = some v := by simpa using h
      have hv : v ∈ t := List.mem_iff_getElem?.mpr ⟨n, h2⟩
      have hav : a ≠ v := fun e => ha (e ▸ hv)
      rw [List.indexOf_cons_ne _ hav, ih hnd2 n v h2]

theorem filter_key_length_one (key : String) (v : Cell) (rows : List Row)
    (hnd : (rows.map (fun r => Row.get r key)).Nodup)
    (r0 : Row) (h0 : r0 ∈ rows) (hv : Row.get r0 key = v) :
    (rows.filter (fun r => Row.get r key == v)).length = 1 := by
  have hcnt : (rows.filter (fun r => Row.get r key == v)).length
      = (rows.map (fun r => Row.get r key)).count v := by
    rw [List.count, List.countP_map, List.countP_eq_length_filter]
    rfl
  have hle : (rows.map (fun r => Row.get r key)).count v ≤ 1 :=
    List.nodup_iff_count_le_one.mp hnd v
  have hpos : 0 < (rows.map (fun r => Row.get r key)).count v :=
    List.count_pos_iff.mpr (List.mem_map.mpr ⟨r0, h0, hv⟩)
  omega

/-! ### Specification predicates for the keyed dimension extractions -/

/-- Dedup contract of a keyed extraction: output keys are pairwise
distinct, every output key occurs in the source, and each output row is
the projection of the first source row bearing its key. -/
def keyedDedupSpec (key : String) (cols : List String) (df out : DataFrame) : Prop :=
  (out.rows.map (fun r => Row.get r key)).Nodup ∧
  (∀ r ∈ out.rows, Row.get r key ∈ df.rows.map (fun s => Row.get s key)) ∧
  (∀ r ∈ out.rows,
    (df.rows.find? (fun s => Row.get s key == Row.get r key)).map (selectCols cols)
      = some r)

/-- Order contract of a keyed extraction: if the first occurrence of key
v1 precedes the first occurrence of key v2 in the source, the output row
for v1 precedes the output row for v2.  `List.indexOf` is the position of
a value's first occurrence, so on the source key column it orders keys by
first occurrence.  Stated twice: over the output key column's first
occurrences, and — fully row-positionally — for any two output rows r1,
r2 at positions i1, i2 whose keys' first source occurrences are ordered,
i1 < i2. -/
def firstOccOrderSpec (key : String) (df out : DataFrame) : Prop :=
  (∀ v1 v2 : Cell,
    v1 ∈ out.rows.map (fun r => Row.get r key) →
    v2 ∈ out.rows.map (fun r => Row.get r key) →
    (df.rows.map (fun s => Row.get s key)).indexOf v1
      < (df.rows.map (fun s => Row.get s key)).indexOf v2 →
    (out.rows.map (fun r => Row.get r key)).indexOf v1
      < (out.rows.map (fun r => Row.get r key)).indexOf v2) ∧
  (∀ (i1 i2 : Nat) (r1 r2 : Row),
    out.rows[i1]? = some r1 → out.rows[i2]? = some r2 →
    (df.rows.map (fun s => Row.get s key)).indexOf (Row.get r1 key)
      < (df.rows.map (fun s => Row.get s key)).indexOf (Row.get r2 key) →
    i1 < i2)

/-- Null-key contract of a keyed extraction: the output's unique row with
a null key is the projection of the first source row with a null key. -/
def nullKeyKeptSpec (key : String) (cols : List String) (df out : DataFrame) : Prop :=
  out.rows.find? (fun r => Row.get r key == Cell.null)
    = (df.rows.find? (fun s => Row.get s key == Cell.null)).map (selectCols cols) ∧
  (out.rows.filter (fun r => Row.get r key == Cell.null)).length = 1

theorem customers_df_ok (df out : DataFrame) (h : customers_df df = Except.ok out) :
    out.rows = dropDuplicatesBy "Customer ID" (df.rows.map (selectCols customer_cols)) [] := by
  unfold customers_df at h
  split at h
  · cases h
    rfl
  · exact Except.noConfusion h

theorem products_df_ok (df out : DataFrame) (h : products_df df = Except.ok out) :
    out.rows = dropDuplicatesBy "Product ID" (df.rows.map (selectCols product_cols)) [] := by
  unfold products_df at h
  split at h
  · cases h
    rfl
  · exact Except.noConfusion h

theorem map_get_selectCols (key : String) (cols : List String) (hkey : key ∈ cols)
    (rows : List Row) :
    (rows.map (selectCols cols)).map (fun r => Row.get r key)
      = rows.map (fun s => Row.get s key) := by
  rw [List.map_map]
  apply List.map_congr_left
  intro s _
  exact selectCols_get s key cols hkey

theorem keyedDedupSpec_of_extract (key : String) (cols : List String)
    (hkey : key ∈ cols) (df out : DataFrame)
    (hout : out.rows = dropDuplicatesBy key (df.rows.map (selectCols cols)) []) :
    keyedDedupSpec key cols df out := by
  have hkeys : out.rows.map (fun r => Row.get r key)
      = uniqueFirst (df.rows.map (fun s => Row.get s key)) [] := by
    rw [hout, dropDuplicatesBy_map_get, map_get_selectCols key cols hkey]
  refine ⟨?_, ?_, ?_⟩
  · rw [hkeys]
    exact uniqueFirst_nodup _ _
  · intro r hr
    have : Row.get r key ∈ out.rows.map (fun r => Row.get r key) :=
      List.mem_map.mpr ⟨r, hr, rfl⟩
    rw [hkeys] at this
    exact ((uniqueFirst_mem _ _ _).mp this).1
  · intro r hr
    rw [hout] at hr
    have hfind := (dropDuplicatesBy_first key _ [] r hr).2
    rw [List.find?_map] at hfind
    have hpred : ((fun s => Row.get s key == Row.get r key) ∘ selectCols cols)
        = (fun s => Row.get s key == Row.get r key) := by
      funext s
      simp only [Function.comp]
      rw [selectCols_get s key cols hkey]
    rw [hpred] at hfind
    exact hfind

theorem firstOccOrder_of_extract (key : String) (cols : List String)
    (hkey : key ∈ cols) (df out : DataFrame)
    (hout : out.rows = dropDuplicatesBy key (df.rows.map (selectCols cols)) []) :
    firstOccOrderSpec key df out := by
  have hkeys : out.rows.map (fun r => Row.get r key)
      = uniqueFirst (df.rows.map (fun s => Row.get s key)) [] := by
    rw [hout, dropDuplicatesBy_map_get, map_get_selectCols key cols hkey]
  have hbase : ∀ v1 v2 : Cell,
      v1 ∈ out.rows.map (fun r => Row.get r key) →
      v2 ∈ out.rows.map (fun r => Row.get r key) →
      (df.rows.map (fun s => Row.get s key)).indexOf v1
        < (df.rows.map (fun s => Row.get s key)).indexOf v2 →
      (out.rows.map (fun r => Row.get r key)).indexOf v1
        < (out.rows.map (fun r => Row.get r key)).indexOf v2 := by
    intro v1 v2 h1 h2 hlt
    rw [hkeys] at h1 h2 ⊢
    exact uniqueFirst_indexOf_lt v1 v2 _ [] h1 h2 hlt
  refine ⟨hbase, ?_⟩
  intro i1 i2 r1 r2 h1 h2 hlt
  have hnd : (out.rows.map (fun r => Row.get r key)).Nodup := by
    rw [hkeys]
    exact uniqueFirst_nodup _ _
  have hk1 : (out.rows.map (fun r => Row.get r key))[i1]? = some (Row.get r1 key) := by
    rw [List.getElem?_map, h1]
    rfl
  have hk2 : (out.rows.map (fun r => Row.get r key))[i2]? = some (Row.get r2 key) := by
    rw [List.getElem?_map, h2]
    rfl
  have hm1 : Row.get r1 key ∈ out.rows.map (fun r => Row.get r key) :=
    List.mem_iff_getElem?.mpr ⟨i1, hk1⟩
  have hm2 : Row.get r2 key ∈ out.rows.map (fun r => Row.get r key) :=
    List.mem_iff_getElem?.mpr ⟨i2, hk2⟩
  have hidx := hbase (Row.get r1 key) (Row.get r2 key) hm1 hm2 hlt
  rw [indexOf_eq_of_getElem? _ hnd i1 _ hk1,
      indexOf_eq_of_getElem? _ hnd i2 _ hk2] at hidx
  exact hidx

theorem nullKeyKept_of_extract (key : String) (cols : List String)
    (hkey : key ∈ cols) (df out : DataFrame)
    (hout : out.rows = dropDuplicatesBy key (df.rows.map (selectCols cols)) [])
    (hex : df.rows.any (fun s => Row.get s key == Cell.null) = true) :
    nullKeyKeptSpec key cols df out := by
  have hkeys : out.rows.map (fun r => Row.get r key)
      = uniqueFirst (df.rows.map (fun s => Row.get s key)) [] := by
    rw [hout, dropDuplicatesBy_map_get, map_get_selectCols key cols hkey]
  obtain ⟨s0, hs0, hs0n⟩ := List.any_eq_true.mp hex
  have hs0n : Row.get s0 key = Cell.null := by simpa using hs0n
  have hnull_src : Cell.null ∈ df.rows.map (fun s => Row.get s key) :=
    List.mem_map.mpr ⟨s0, hs0, hs0n⟩
  have hnull_out : Cell.null ∈ out.rows.map (fun r => Row.get r key) := by
    rw [hkeys]
    exact (uniqueFirst_mem _ _ _).mpr ⟨hnull_src, by simp⟩
  obtain ⟨r0, hr0, hr0n⟩ := List.mem_map.mp hnull_out
  have hfirst : ∀ b ∈ out.rows, Row.get b key = Cell.null →
      (df.rows.find? (fun s => Row.get s key == Cell.null)).map (selectCols cols)
        = some b := by
    intro b hb hbn
    rw [hout] at hb
    have hfind := (dropDuplicatesBy_first key _ [] b hb).2
    rw [hbn] at hfind
    rw [List.find?_map] at hfind
    have hpred : ((fun s => Row.get s key == Cell.null) ∘ selectCols cols)
        = (fun s => Row.get s key == Cell.null) := by
      funext s
      simp only [Function.comp]
      rw [selectCols_get s key cols hkey]
    rw [hpred] at hfind
    exact hfind
  have huniq : ∀ b ∈ out.rows, (Row.get b key == Cell.null) = true → b = r0 := by
    intro b hb hbn
    have h1 := hfirst b hb (by simpa using hbn)
    have h2 := hfirst r0 hr0 hr0n
    rw [h1] at h2
    exact Option.some.inj h2
  constructor
  · rw [find?_eq_some_of_unique _ out.rows r0 hr0 (by simp [hr0n]) huniq]
    exact (hfirst r0 hr0 hr0n).symm
  · refine filter_key_length_one key Cell.null out.rows ?_ r0 hr0 hr0n
    rw [hkeys]
    exact uniqueFirst_nodup _ _

/-! ### Claim theorems -/

/-- C1: for every source relation and each keyed dimension extraction
(CustomerDimension keyed by `Customer ID`, ProductDimension keyed by
`Product ID`), the output contains no two rows with equal key values,
every key value in the output occurs in the source relation, and the row
kept for each key is the first source row (in original order) bearing
that key, with that row's other attribute values. -/
theorem claim_C1_keyed_dedup (df outC outP : DataFrame) :
    (customers_df df = Except.ok outC →
      keyedDedupSpec "Customer ID" customer_cols df outC) ∧
    (products_df df = Except.ok outP →
      keyedDedupSpec "Product ID" product_cols df outP) := by
  constructor
  · intro h
    exact keyedDedupSpec_of_extract _ _ (by simp [customer_cols]) df outC
      (customers_df_ok df outC h)
  · intro h
    exact keyedDedupSpec_of_extract _ _ (by simp [product_cols]) df outP
      (products_df_ok df outP h)

/-- C7: keyed dimension extraction (`drop_duplicates(subset=[key])` for
CustomerDimension and ProductDimension) preserves first-occurrence order:
for any two key values k1 and k2 whose first occurrences in the source
relation are ordered (`indexOf` on the source key column), the output row
bearing k1 sits at a strictly smaller row position than the output row
bearing k2 — both at the key level and for the row positions i1 < i2
themselves. -/
theorem claim_C7_first_occurrence_order (df outC outP : DataFrame) :
    (customers_df df = Except.ok outC →
      firstOccOrderSpec "Customer ID" df outC) ∧
    (products_df df = Except.ok outP →
      firstOccOrderSpec "Product ID" df outP) := by
  constructor
  · intro h
    exact firstOccOrder_of_extract _ customer_cols (by simp [customer_cols]) df outC
      (customers_df_ok df outC h)
  · intro h
    exact firstOccOrder_of_extract _ product_cols (by simp [product_cols]) df outP
      (products_df_ok df outP h)

/-- C10: in the keyed dimensions, a source row with a null key value is
not excluded: null acts as a dedup key value, so the first null-key source
row is kept (projected), and the output has exactly one null-key row. -/
theorem claim_C10_null_key_kept (df outC outP : DataFrame) :
    (customers_df df = Except.ok outC →
      df.rows.any (fun s => Row.get s "Customer ID" == Cell.null) = true →
      nullKeyKeptSpec "Customer ID" customer_cols df outC) ∧
    (products_df df = Except.ok outP →
      df.rows.any (fun s => Row.get s "Product ID" == Cell.null) = true →
      nullKeyKeptSpec "Product ID" product_cols df outP) := by
  constructor
  · intro h hex
    exact nullKeyKept_of_extract _ _ (by simp [customer_cols]) df outC
      (customers_df_ok df outC h) hex
  · intro h hex
    exact nullKeyKept_of_extract _ _ (by simp [product_cols]) df outP
      (products_df_ok df outP h) hex

/-! ### Concrete sample relations for witnesses -/

/-- A row of a small concrete source relation, with chosen customer and
product keys. -/
def sampleRow (cid : Cell) (cname : String) (pid : Cell) (pname : String) : Row :=
  [("Customer ID", cid), ("Customer Name", Cell.str cname),
   ("Segment", Cell.str "Consumer"), ("Country", Cell.str "US"),
   ("City", Cell.str "NY"), ("State", Cell.str "NY"),
   ("Postal Code", Cell.str "1"), ("Region", Cell.str "East"),
   ("Product ID", pid), ("Product Name", Cell.str pname),
   ("Category", Cell.str "Office"), ("Sub-Category", Cell.str "Pens")]

/-- Three rows with a duplicate customer key and a duplicate product key. -/
def sampleDf : DataFrame :=
  ⟨customer_cols ++ product_cols,
   [sampleRow (Cell.str "C1") "Alice" (Cell.str "P1") "Pen",
    sampleRow (Cell.str "C2") "Bob" (Cell.str "P1") "Duo",
    sampleRow (Cell.str "C1") "Ann" (Cell.str "P2") "Ink"]⟩

/-- Three rows with null customer and product keys, duplicated. -/
def sampleNullDf : DataFrame :=
  ⟨customer_cols ++ product_cols,
   [sampleRow Cell.null "Nina" (Cell.str "P1") "Pen",
    sampleRow (Cell.str "C2") "Bob" Cell.null "Mystery",
    sampleRow Cell.null "Nel" Cell.null "Gone"]⟩

/-- The customer dimension the script derives from `sampleDf`. -/
def sampleCustomers : DataFrame :=
  ⟨customer_cols,
   [selectCols customer_cols (sampleRow (Cell.str "C1") "Alice" (Cell.str "P1") "Pen"),
    selectCols customer_cols (sampleRow (Cell.str "C2") "Bob" (Cell.str "P1") "Duo")]⟩

/-- The product dimension the script derives from `sampleDf`. -/
def sampleProducts : DataFrame :=
  ⟨product_cols,
   [selectCols product_cols (sampleRow (Cell.str "C1") "Alice" (Cell.str "P1") "Pen"),
    selectCols product_cols (sampleRow (Cell.str "C1") "Ann" (Cell.str "P2") "Ink")]⟩

/-- The customer dimension the script derives from `sampleNullDf`. -/
def sampleNullCustomers : DataFrame :=
  ⟨customer_cols,
   [selectCols customer_cols (sampleRow Cell.null "Nina" (Cell.str "P1") "Pen"),
    selectCols customer_cols (sampleRow (Cell.str "C2") "Bob" Cell.null "Mystery")]⟩

/-- The product dimension the script derives from `sampleNullDf`. -/
def sampleNullProducts : DataFrame :=
  ⟨product_cols,
   [selectCols product_cols (sampleRow Cell.null "Nina" (Cell.str "P1") "Pen"),
    selectCols product_cols (sampleRow (Cell.str "C2") "Bob" Cell.null "Mystery")]⟩

/-- C1 witness: on `sampleDf` (five key occurrences, duplicates among
them) the dedup contract holds for both keyed dimensions. -/
theorem claim_C1_keyed_dedup_witness :
    keyedDedupSpec "Customer ID" customer_cols sampleDf sampleCustomers ∧
    keyedDedupSpec "Product ID" product_cols sampleDf sampleProducts :=
  ⟨(claim_C1_keyed_dedup sampleDf sampleCustomers sampleProducts).1 (by decide),
   (claim_C1_keyed_dedup sampleDf sampleCustomers sampleProducts).2 (by decide)⟩

/-- C7 witness: on `sampleDf` the first-occurrence order contract holds
for both keyed dimensions. -/
theorem claim_C7_first_occurrence_order_witness :
    firstOccOrderSpec "Customer ID" sampleDf sampleCustomers ∧
    firstOccOrderSpec "Product ID" sampleDf sampleProducts :=
  ⟨(claim_C7_first_occurrence_order sampleDf sampleCustomers sampleProducts).1 (by decide),
   (claim_C7_first_occurrence_order sampleDf sampleCustomers sampleProducts).2 (by decide)⟩

/-- C10 witness: on `sampleNullDf`, whose keys include nulls, the first
null-key row is kept in each keyed dimension. -/
theorem claim_C10_null_key_kept_witness :
    nullKeyKeptSpec "Customer ID" customer_cols sampleNullDf sampleNullCustomers ∧
    nullKeyKeptSpec "Product ID" product_cols sampleNullDf sampleNullProducts :=
  ⟨(claim_C10_null_key_kept sampleNullDf sampleNullCustomers sampleNullProducts).1
      (by decide) (by decide),
   (claim_C10_null_key_kept sampleNullDf sampleNullCustomers sampleNullProducts).2
      (by decide) (by decide)⟩

/-! ### Fact projection (C2, C3) -/

/-- The source-to-target column rename pairs, as listed in the script. -/
theorem fact_zip_eq :
    fact_sales_df_columns.zip fact_sales_sql_columns =
      [("Order ID", "OrderID"), ("Customer ID", "CustomerID"),
       ("Product ID", "ProductID"), ("Order Date", "OrderDate"),
       ("Ship Date", "ShipDate"), ("Ship Mode", "ShipMode"),
       ("Sales", "Sales"), ("Order_Year", "Order_Year"),
       ("Order_Month", "Order_Month"), ("Order_Day", "Order_Day"),
       ("Order_Weekday", "Order_Weekday"), ("Shipping_Delay", "Shipping_Delay"),
       ("Log_Sales", "Log_Sales"), ("Scaled_Sales", "Scaled_Sales")] := rfl

theorem factRow_get_nondate (s : Row) (c1 c2 : String)
    (hmem : (c1, c2) ∈ fact_sales_df_columns.zip fact_sales_sql_columns)
    (h1 : c2 ≠ "OrderDate") (h2 : c2 ≠ "ShipDate") :
    Row.get (factRow s) c2 = Row.get s c1 := by
  rw [fact_zip_eq] at hmem
  fin_cases hmem <;> first
    | rfl
    | exact absurd rfl h1
    | exact absurd rfl h2

theorem factRow_get_OrderDate (s : Row) :
    Row.get (factRow s) "OrderDate" = formatDateCell (Row.get s "Order Date") := rfl

theorem factRow_get_ShipDate (s : Row) :
    Row.get (factRow s) "ShipDate" = formatDateCell (Row.get s "Ship Date") := rfl

theorem fact_sales_df_ok (df out : DataFrame) (h : fact_sales_df df = Except.ok out) :
    out = ⟨fact_sales_sql_columns, df.rows.map factRow⟩ := by
  simp only [fact_sales_df] at h
  split at h
  · cases h
    rfl
  · exact Except.noConfusion h

/-- Projection contract of the fact table: target column names in order,
one output row per source row, and at every row index each non-date target
column carries the source value of its paired source column. -/
def factProjectionSpec (df out : DataFrame) : Prop :=
  out.cols = fact_sales_sql_columns ∧
  out.rows.length = df.rows.length ∧
  ∀ c1 c2, (c1, c2) ∈ fact_sales_df_columns.zip fact_sales_sql_columns →
    c2 ≠ "OrderDate" → c2 ≠ "ShipDate" →
    ∀ i : Nat, (out.rows[i]?.map (fun r => Row.get r c2))
      = (df.rows[i]?.map (fun s => Row.get s c1))

/-- C2: for a source relation containing all 14 required source columns
the fact projection succeeds; its output has exactly as many rows as the
source (no deduplication) and its columns are exactly the 14 source
columns renamed 1:1 in order per the fixed mapping. -/
theorem claim_C2_fact_projection (df out : DataFrame) :
    ((∀ c ∈ fact_sales_df_columns, c ∈ df.cols) →
      (fact_sales_df df).isOk = true) ∧
    (fact_sales_df df = Except.ok out → factProjectionSpec df out) := by
  constructor
  · intro h
    have hmissing : fact_sales_df_columns.filter (fun c => !(df.cols.contains c)) = [] := by
      rw [List.filter_eq_nil_iff]
      intro c hc
      simp [h c hc]
    simp only [fact_sales_df]
    rw [hmissing]
    rfl
  · intro h
    have hout := fact_sales_df_ok df out h
    subst hout
    refine ⟨rfl, by simp, ?_⟩
    intro c1 c2 hmem h1 h2 i
    rw [List.getElem?_map]
    cases hidx : df.rows[i]? with
    | none => rfl
    | some s =>
      simp [factRow_get_nondate s c1 c2 hmem h1 h2]

/-! ### Load phase inversion (C3, C8, C9) -/

theorem coerceCol_cols (c : String) (df : DataFrame) :
    (coerceCol c df).cols = df.cols := by
  unfold coerceCol
  split
  · rfl
  · rfl

theorem coerceCol_rows_of_mem (c : String) (df : DataFrame)
    (h : df.cols.contains c = true) :
    (coerceCol c df).rows
      = df.rows.map (fun r =>
          r.map (fun p => if p.1 = c then (p.1, coerceCell p.2) else p)) := by
  unfold coerceCol
  rw [if_pos h]

theorem loadCheck_loaded_df (df df2 : DataFrame) (w : Option String)
    (h : loadCheck df = LoadResult.loaded df2 w) :
    df2 = coerceCol "Ship Date" (coerceCol "Order Date" df) := by
  simp only [loadCheck] at h
  split at h
  · exact LoadResult.noConfusion h
  · cases h
    rfl
  · split at h
    · exact LoadResult.noConfusion h
    · cases h
      rfl
    · cases h
      rfl

theorem runScript_eq_exited (df : DataFrame)
    (h : loadCheck df = LoadResult.exited) :
    runScript df = ScriptResult.exited := by
  unfold runScript
  rw [h]

theorem runScript_eq (df df2 : DataFrame) (w : Option String)
    (h : loadCheck df = LoadResult.loaded df2 w) :
    runScript df = ScriptResult.finished (customers_df df2) (products_df df2)
      (ship_modes_df df2) (fact_sales_df df2) w := by
  unfold runScript
  rw [h]

theorem fact_sales_df_ok_cols (df out : DataFrame)
    (h : fact_sales_df df = Except.ok out) :
    ∀ c ∈ fact_sales_df_columns, c ∈ df.cols := by
  simp only [fact_sales_df] at h
  split at h
  case isTrue hcond =>
    intro c hc
    rw [List.isEmpty_iff, List.filter_eq_nil_iff] at hcond
    have hc2 := hcond c hc
    simpa using hc2
  case isFalse =>
    exact Except.noConfusion h

/-- C3: for every source row whose date strings successfully parse to
calendar dates, the fact table serializes them at the same row index as
the literal zero-padded string produced by `formatDate` (the
`'YYYY-MM-DD'` pattern), for both `Order Date`/`OrderDate` and
`Ship Date`/`ShipDate`. -/
theorem claim_C3_date_roundtrip (df fact : DataFrame)
    (cust prod ship : Except TableError DataFrame) (w : Option String)
    (i : Nat) (r : Row)
    (hrun : runScript df = ScriptResult.finished cust prod ship (Except.ok fact) w)
    (hr : df.rows[i]? = some r) :
    (∀ s y m d, Row.get r "Order Date" = Cell.str s →
      parseDateStr s = some (y, m, d) →
      fact.rows[i]?.map (fun r2 => Row.get r2 "OrderDate")
        = some (Cell.str (formatDate y m d))) ∧
    (∀ s y m d, Row.get r "Ship Date" = Cell.str s →
      parseDateStr s = some (y, m, d) →
      fact.rows[i]?.map (fun r2 => Row.get r2 "ShipDate")
        = some (Cell.str (formatDate y m d))) := by
  cases hload : loadCheck df with
  | exited =>
    rw [runScript_eq_exited df hload] at hrun
    exact ScriptResult.noConfusion hrun
  | loaded df2 w2 =>
    rw [runScript_eq df df2 w2 hload] at hrun
    injection hrun with hc hp hs hf hw
    have hcols2 := fact_sales_df_ok_cols df2 fact hf
    have hOD2 : "Order Date" ∈ df2.cols := hcols2 _ (by simp [fact_sales_df_columns])
    have hSD2 : "Ship Date" ∈ df2.cols := hcols2 _ (by simp [fact_sales_df_columns])
    have hdf2 := loadCheck_loaded_df df df2 w2 hload
    have hODdf : "Order Date" ∈ df.cols := by
      rw [hdf2, coerceCol_cols, coerceCol_cols] at hOD2
      exact hOD2
    have hSDdf : "Ship Date" ∈ df.cols := by
      rw [hdf2, coerceCol_cols, coerceCol_cols] at hSD2
      exact hSD2
    have hrows2 : df2.rows
        = (df.rows.map (fun r =>
            r.map (fun p => if p.1 = "Order Date" then (p.1, coerceCell p.2) else p))).map
          (fun r =>
            r.map (fun p => if p.1 = "Ship Date" then (p.1, coerceCell p.2) else p)) := by
      rw [hdf2, coerceCol_rows_of_mem "Ship Date" _ ?_,
          coerceCol_rows_of_mem "Order Date" _ (List.elem_eq_true_of_mem hODdf)]
      rw [coerceCol_cols]
      exact List.elem_eq_true_of_mem hSDdf
    have hfact := fact_sales_df_ok df2 fact hf
    have hfrows : fact.rows[i]?
        = some (factRow
            ((r.map (fun p => if p.1 = "Order Date" then (p.1, coerceCell p.2) else p)).map
              (fun p => if p.1 = "Ship Date" then (p.1, coerceCell p.2) else p))) := by
      rw [hfact]
      show (df2.rows.map factRow)[i]? = _
      rw [List.getElem?_map, hrows2, List.getElem?_map, List.getElem?_map, hr]
      rfl
    constructor
    · intro s y m d hcell hparse
      rw [hfrows]
      simp only [Option.map_some']
      rw [factRow_get_OrderDate, coerceRow_get, if_neg (by decide),
          coerceRow_get, if_pos rfl, hcell]
      simp only [coerceCell]
      rw [hparse]
      rfl
    · intro s y m d hcell hparse
      rw [hfrows]
      simp only [Option.map_some']
      rw [factRow_get_ShipDate, coerceRow_get, if_pos rfl, coerceRow_get,
          if_neg (by decide), hcell]
      simp only [coerceCell]
      rw [hparse]
      rfl

/-- A raw source row carrying all 14 fact source columns, with chosen
order id and date strings (as read from CSV, before coercion). -/
def sampleFactRow (oid od sd : String) : Row :=
  [("Order ID", Cell.str oid), ("Customer ID", Cell.str "C1"),
   ("Product ID", Cell.str "P1"), ("Order Date", Cell.str od),
   ("Ship Date", Cell.str sd), ("Ship Mode", Cell.str "Standard"),
   ("Sales", Cell.str "10.5"), ("Order_Year", Cell.str "2023"),
   ("Order_Month", Cell.str "3"), ("Order_Day", Cell.str "5"),
   ("Order_Weekday", Cell.str "6"), ("Shipping_Delay", Cell.str "2"),
   ("Log_Sales", Cell.str "1.0"), ("Scaled_Sales", Cell.str "0.5")]

/-- A raw source relation with the 14 fact source columns and two rows. -/
def sampleFactDf : DataFrame :=
  ⟨fact_sales_df_columns,
   [sampleFactRow "O1" "2023-03-05" "2023-03-07",
    sampleFactRow "O2" "2023-04-01" "2023-04-02"]⟩

/-- `sampleFactDf` after the loader's date coercion. -/
def sampleFactCoerced : DataFrame :=
  coerceCol "Ship Date" (coerceCol "Order Date" sampleFactDf)

/-- The fact table the script derives from `sampleFactCoerced`. -/
def sampleFactTable : DataFrame :=
  ⟨fact_sales_sql_columns, sampleFactCoerced.rows.map factRow⟩

/-- C2 witness: on `sampleFactDf` (coerced) the fact projection succeeds,
keeps both rows, and renames the columns per the fixed mapping. -/
theorem claim_C2_fact_projection_witness :
    (fact_sales_df sampleFactCoerced).isOk = true ∧
    factProjectionSpec sampleFactCoerced sampleFactTable :=
  ⟨(claim_C2_fact_projection sampleFactCoerced sampleFactTable).1 (by decide),
   (claim_C2_fact_projection sampleFactCoerced sampleFactTable).2 (by decide)⟩

/-- C3 witness: the first row of `sampleFactDf` parses to 2023-03-05 /
2023-03-07, and the fact table holds exactly the strings "2023-03-05" and
"2023-03-07" at that row. -/
theorem claim_C3_date_roundtrip_witness :
    sampleFactTable.rows[0]?.map (fun r2 => Row.get r2 "OrderDate")
        = some (Cell.str (formatDate 2023 3 5)) ∧
    sampleFactTable.rows[0]?.map (fun r2 => Row.get r2 "ShipDate")
        = some (Cell.str (formatDate 2023 3 7)) ∧
    formatDate 2023 3 5 = "2023-03-05" ∧
    formatDate 2023 3 7 = "2023-03-07" :=
  ⟨(claim_C3_date_roundtrip sampleFactDf sampleFactTable
      (customers_df sampleFactCoerced) (products_df sampleFactCoerced)
      (ship_modes_df sampleFactCoerced) none 0
      (sampleFactRow "O1" "2023-03-05" "2023-03-07")
      (by decide) (by decide)).1 "2023-03-05" 2023 3 5 (by decide) (by decide),
   (claim_C3_date_roundtrip sampleFactDf sampleFactTable
      (customers_df sampleFactCoerced) (products_df sampleFactCoerced)
      (ship_modes_df sampleFactCoerced) none 0
      (sampleFactRow "O1" "2023-03-05" "2023-03-07")
      (by decide) (by decide)).2 "2023-03-07" 2023 3 7 (by decide) (by decide),
   by decide, by decide⟩

/-! ### Ship-mode dimension (C4) -/

/-- The single-column values of a ship-mode dimension table. -/
def shipModeVals (out : DataFrame) : List Cell :=
  out.rows.map (fun r => Row.get r "Ship Mode")

/-- Ship-mode contract: one `Ship Mode` column whose values are pairwise
distinct, never null, drawn from the source column, covering every
non-null source value, in first-appearance order. -/
def shipModeSpec (df out : DataFrame) : Prop :=
  out.cols = ["Ship Mode"] ∧
  (shipModeVals out).Nodup ∧
  Cell.null ∉ shipModeVals out ∧
  (∀ v ∈ shipModeVals out, v ∈ df.rows.map (fun r => Row.get r "Ship Mode")) ∧
  (∀ v ∈ df.rows.map (fun r => Row.get r "Ship Mode"),
    v ≠ Cell.null → v ∈ shipModeVals out) ∧
  (∀ v1 ∈ shipModeVals out, ∀ v2 ∈ shipModeVals out,
    (df.rows.map (fun r => Row.get r "Ship Mode")).indexOf v1
      < (df.rows.map (fun r => Row.get r "Ship Mode")).indexOf v2 →
    (shipModeVals out).indexOf v1 < (shipModeVals out).indexOf v2)

theorem ship_modes_df_ok (df out : DataFrame)
    (h : ship_modes_df df = Except.ok out) :
    out = ⟨["Ship Mode"],
      ((uniqueFirst (df.rows.map (fun r => Row.get r "Ship Mode")) []).filter
        (fun v => !(v == Cell.null))).map (fun v => [("Ship Mode", v)])⟩ := by
  unfold ship_modes_df at h
  split at h
  · cases h
    rfl
  · exact Except.noConfusion h

/-- C4: for every source relation with a `Ship Mode` column, the
ShipModeDimension is exactly the distinct non-null values of `Ship Mode`
in first-appearance order, with nulls excluded entirely. -/
theorem claim_C4_ship_modes (df out : DataFrame)
    (h : ship_modes_df df = Except.ok out) : shipModeSpec df out := by
  have hout := ship_modes_df_ok df out h
  subst hout
  have hvals : shipModeVals ⟨["Ship Mode"],
      ((uniqueFirst (df.rows.map (fun r => Row.get r "Ship Mode")) []).filter
        (fun v => !(v == Cell.null))).map (fun v => [("Ship Mode", v)])⟩
      = (uniqueFirst (df.rows.map (fun r => Row.get r "Ship Mode")) []).filter
          (fun v => !(v == Cell.null)) := by
    unfold shipModeVals
    rw [List.map_map]
    have hcomp : ((fun r => Row.get r "Ship Mode") ∘ (fun v => [("Ship Mode", v)]))
        = id := by
      funext v
      rfl
    rw [hcomp, List.map_id]
  refine ⟨rfl, ?_, ?_, ?_, ?_, ?_⟩
  · rw [hvals]
    exact List.Nodup.filter _ (uniqueFirst_nodup _ _)
  · rw [hvals]
    intro hmem
    have := (List.mem_filter.mp hmem).2
    simp at this
  · intro v hv
    rw [hvals] at hv
    exact ((uniqueFirst_mem v _ _).mp (List.mem_filter.mp hv).1).1
  · intro v hv hvn
    rw [hvals]
    refine List.mem_filter.mpr ⟨(uniqueFirst_mem v _ _).mpr ⟨hv, by simp⟩, ?_⟩
    simpa using hvn
  · intro v1 hv1 v2 hv2 hlt
    rw [hvals] at hv1 hv2 ⊢
    have h1u := (List.mem_filter.mp hv1).1
    have h2u := (List.mem_filter.mp hv2).1
    have hlt2 := uniqueFirst_indexOf_lt v1 v2 _ [] h1u h2u hlt
    exact filter_indexOf_lt _ v1 v2 _ (uniqueFirst_nodup _ _) hv1 hv2 hlt2

/-- The spec's ship-mode scenario: `["Standard", "Standard", "Express",
null]` in the `Ship Mode` column. -/
def sampleShipDf : DataFrame :=
  ⟨["Ship Mode"],
   [[("Ship Mode", Cell.str "Standard")],
    [("Ship Mode", Cell.str "Standard")],
    [("Ship Mode", Cell.str "Express")],
    [("Ship Mode", Cell.null)]]⟩

/-- The ship-mode dimension the script derives from `sampleShipDf`. -/
def sampleShipOut : DataFrame :=
  ⟨["Ship Mode"],
   [[("Ship Mode", Cell.str "Standard")],
    [("Ship Mode", Cell.str "Express")]]⟩

/-- C4 witness: the scenario column yields exactly the rows `["Standard",
"Express"]` and no null row, and the contract holds there. -/
theorem claim_C4_ship_modes_witness :
    shipModeSpec sampleShipDf sampleShipOut ∧
    ship_modes_df sampleShipDf = Except.ok sampleShipOut :=
  ⟨claim_C4_ship_modes sampleShipDf sampleShipOut (by decide), by decide⟩

/-! ### Schema mismatch errors and failure isolation (C5, C6) -/

theorem contains_eq_false_of_not_mem (l : List String) (c : String)
    (h : c ∉ l) : l.contains c = false := by
  cases hc : l.contains c
  · rfl
  · exact absurd (List.mem_of_elem_eq_true hc) h

theorem customers_df_error_of_missing (df : DataFrame) (c0 : String)
    (hc0 : c0 ∈ customer_cols) (h : c0 ∉ df.cols) :
    customers_df df = Except.error (TableError.genericMissing "customers") := by
  have hcond : ¬ (customer_cols.all (fun c => df.cols.contains c) = true) :=
    fun hall => h (List.mem_of_elem_eq_true (List.all_eq_true.mp hall c0 hc0))
  unfold customers_df
  rw [if_neg hcond]

theorem products_df_error_of_missing (df : DataFrame) (c0 : String)
    (hc0 : c0 ∈ product_cols) (h : c0 ∉ df.cols) :
    products_df df = Except.error (TableError.genericMissing "products") := by
  have hcond : ¬ (product_cols.all (fun c => df.cols.contains c) = true) :=
    fun hall => h (List.mem_of_elem_eq_true (List.all_eq_true.mp hall c0 hc0))
  unfold products_df
  rw [if_neg hcond]

theorem customers_df_isOk_of_cols (df : DataFrame)
    (h : ∀ c ∈ customer_cols, c ∈ df.cols) : (customers_df df).isOk = true := by
  have hcond : customer_cols.all (fun c => df.cols.contains c) = true :=
    List.all_eq_true.mpr (fun c hc => List.elem_eq_true_of_mem (h c hc))
  unfold customers_df
  rw [if_pos hcond]
  rfl

theorem ship_modes_df_isOk_of_col (df : DataFrame)
    (h : "Ship Mode" ∈ df.cols) : (ship_modes_df df).isOk = true := by
  unfold ship_modes_df
  rw [if_pos (List.elem_eq_true_of_mem h)]
  rfl

theorem fact_sales_df_isOk_of_cols (df : DataFrame)
    (h : ∀ c ∈ fact_sales_df_columns, c ∈ df.cols) :
    (fact_sales_df df).isOk = true := by
  have hmissing : fact_sales_df_columns.filter (fun c => !(df.cols.contains c)) = [] := by
    rw [List.filter_eq_nil_iff]
    intro c hc
    simp [h c hc]
  simp only [fact_sales_df]
  rw [hmissing]
  rfl

theorem fact_sales_df_error_of_missing (df : DataFrame) (c0 : String)
    (hc0 : c0 ∈ fact_sales_df_columns) (h : c0 ∉ df.cols) :
    fact_sales_df df = Except.error (TableError.missingCols
      (fact_sales_df_columns.filter (fun c => !(df.cols.contains c)))) := by
  have hmem : c0 ∈ fact_sales_df_columns.filter (fun c => !(df.cols.contains c)) :=
    List.mem_filter.mpr ⟨hc0, by rw [contains_eq_false_of_not_mem df.cols c0 h]; rfl⟩
  have hcond : ¬ ((fact_sales_df_columns.filter
      (fun c => !(df.cols.contains c))).isEmpty = true) := by
    intro hE
    rw [List.isEmpty_iff] at hE
    rw [hE] at hmem
    cases hmem
  simp only [fact_sales_df]
  rw [if_neg hcond]

/-- Fact-table mismatch contract: whenever the fact projection fails, the
reported column list holds exactly the required source columns absent from
the relation, and no fact output is produced. -/
def factMismatchContract (df : DataFrame) : Prop :=
  (∀ missing, fact_sales_df df = Except.error (TableError.missingCols missing) →
    ∀ c, (c ∈ missing ↔ c ∈ fact_sales_df_columns ∧ c ∉ df.cols)) ∧
  (fact_sales_df df).isOk = false

/-- C5 (amended): a missing required column makes that table's
construction fail, before any row processing and with no output for that
table; the fact table's error names exactly the missing columns, but the
customer and product dimension failures carry a generic message that does
not name the missing columns. -/
theorem claim_C5_schema_mismatch (df : DataFrame) :
    ((¬ ∀ c ∈ customer_cols, c ∈ df.cols) →
      customers_df df = Except.error (TableError.genericMissing "customers")) ∧
    ((¬ ∀ c ∈ product_cols, c ∈ df.cols) →
      products_df df = Except.error (TableError.genericMissing "products")) ∧
    (∀ c0 ∈ fact_sales_df_columns, c0 ∉ df.cols → factMismatchContract df) := by
  refine ⟨?_, ?_, ?_⟩
  · intro h
    push_neg at h
    obtain ⟨c0, hc0, hnc⟩ := h
    exact customers_df_error_of_missing df c0 hc0 hnc
  · intro h
    push_neg at h
    obtain ⟨c0, hc0, hnc⟩ := h
    exact products_df_error_of_missing df c0 hc0 hnc
  · intro c0 hc0 hnc
    have herr := fact_sales_df_error_of_missing df c0 hc0 hnc
    constructor
    · intro missing hm c
      rw [herr] at hm
      injection hm with hm
      injection hm with hm
      subst hm
      rw [List.mem_filter]
      constructor
      · rintro ⟨h1, h2⟩
        refine ⟨h1, fun hmem => ?_⟩
        have hct : df.cols.contains c = true := List.elem_eq_true_of_mem hmem
        rw [hct] at h2
        cases h2
      · rintro ⟨h1, h2⟩
        exact ⟨h1, by rw [contains_eq_false_of_not_mem df.cols c h2]; rfl⟩
    · rw [herr]
      rfl

/-- A relation missing most required columns. -/
def missingColsDf : DataFrame :=
  ⟨["Customer ID", "Product ID"], []⟩

/-- C5 counterexample: on a relation missing customer columns, the
customer-dimension failure is the generic message, which does not name the
missing columns — contradicting "never a generic failure notice". -/
theorem claim_C5_schema_mismatch_counterexample :
    customers_df missingColsDf = Except.error (TableError.genericMissing "customers") ∧
    (TableError.genericMissing "customers").namesCols = false := by
  exact ⟨by decide, rfl⟩

/-- C5 witness: on `missingColsDf` both dimension constructions fail with
the generic message and the fact construction reports exactly the missing
columns. -/
theorem claim_C5_schema_mismatch_witness :
    customers_df missingColsDf = Except.error (TableError.genericMissing "customers") ∧
    products_df missingColsDf = Except.error (TableError.genericMissing "products") ∧
    factMismatchContract missingColsDf :=
  ⟨(claim_C5_schema_mismatch missingColsDf).1 (by decide),
   (claim_C5_schema_mismatch missingColsDf).2.1 (by decide),
   (claim_C5_schema_mismatch missingColsDf).2.2 "Order ID" (by decide) (by decide)⟩

/-- The customer-dimension component of a run outcome, `true` when that
table was built. -/
def scriptCustomersOk : ScriptResult → Bool
  | ScriptResult.finished c _ _ _ _ => c.isOk
  | ScriptResult.exited => false

/-- The product-dimension component of a run outcome. -/
def scriptProducts : ScriptResult → Option (Except TableError DataFrame)
  | ScriptResult.finished _ p _ _ _ => some p
  | ScriptResult.exited => none

/-- The ship-mode component of a run outcome, `true` when built. -/
def scriptShipModesOk : ScriptResult → Bool
  | ScriptResult.finished _ _ s _ _ => s.isOk
  | ScriptResult.exited => false

/-- The fact-table component of a run outcome, `true` when built. -/
def scriptFactOk : ScriptResult → Bool
  | ScriptResult.finished _ _ _ f _ => f.isOk
  | ScriptResult.exited => false

theorem loadCheck_loaded_of_cols (df : DataFrame)
    (h1 : "Order Date" ∈ df.cols) (h2 : "Ship Date" ∈ df.cols) :
    ∃ w, loadCheck df = LoadResult.loaded
      (coerceCol "Ship Date" (coerceCol "Order Date" df)) w := by
  have hc1 : (coerceCol "Ship Date" (coerceCol "Order Date" df)).cols.contains
      "Order Date" = true := by
    rw [coerceCol_cols, coerceCol_cols]
    exact List.elem_eq_true_of_mem h1
  have hc2 : (coerceCol "Ship Date" (coerceCol "Order Date" df)).cols.contains
      "Ship Date" = true := by
    rw [coerceCol_cols, coerceCol_cols]
    exact List.elem_eq_true_of_mem h2
  cases hA1 : (coerceCol "Ship Date" (coerceCol "Order Date" df)).rows.any
      (fun r => Row.get r "Order Date" == Cell.null) with
  | true =>
    refine ⟨some coercionWarning, ?_⟩
    simp only [loadCheck, colIsnullAny]
    rw [if_pos hc1, hA1]
  | false =>
    cases hA2 : (coerceCol "Ship Date" (coerceCol "Order Date" df)).rows.any
        (fun r => Row.get r "Ship Date" == Cell.null) with
    | true =>
      refine ⟨some coercionWarning, ?_⟩
      simp only [loadCheck, colIsnullAny]
      rw [if_pos hc1, hA1, if_pos hc2, hA2]
    | false =>
      refine ⟨none, ?_⟩
      simp only [loadCheck, colIsnullAny]
      rw [if_pos hc1, hA1, if_pos hc2, hA2]

/-- C6 (amended): on a relation missing only `Sub-Category` (all other
required columns present), the product dimension fails — with the generic
message, which does not name `Sub-Category` — while the customer
dimension, ship-mode dimension, and fact table are still constructed. -/
theorem claim_C6_failure_isolation (df : DataFrame)
    (hsub : "Sub-Category" ∉ df.cols)
    (hcust : ∀ c ∈ customer_cols, c ∈ df.cols)
    (hship : "Ship Mode" ∈ df.cols)
    (hfact : ∀ c ∈ fact_sales_df_columns, c ∈ df.cols) :
    scriptCustomersOk (runScript df) = true ∧
    scriptProducts (runScript df)
      = some (Except.error (TableError.genericMissing "products")) ∧
    scriptShipModesOk (runScript df) = true ∧
    scriptFactOk (runScript df) = true := by
  obtain ⟨w, hw⟩ := loadCheck_loaded_of_cols df
    (hfact _ (by simp [fact_sales_df_columns]))
    (hfact _ (by simp [fact_sales_df_columns]))
  rw [runScript_eq df _ w hw]
  have hcols : (coerceCol "Ship Date" (coerceCol "Order Date" df)).cols = df.cols := by
    rw [coerceCol_cols, coerceCol_cols]
  refine ⟨?_, ?_, ?_, ?_⟩
  · show (customers_df _).isOk = true
    apply customers_df_isOk_of_cols
    rw [hcols]
    exact hcust
  · show some (products_df _) = _
    rw [products_df_error_of_missing _ "Sub-Category" (by simp [product_cols])
      (by rw [hcols]; exact hsub)]
  · show (ship_modes_df _).isOk = true
    apply ship_modes_df_isOk_of_col
    rw [hcols]
    exact hship
  · show (fact_sales_df _).isOk = true
    apply fact_sales_df_isOk_of_cols
    rw [hcols]
    exact hfact

/-- A full source row except that no `Sub-Category` column exists. -/
def sampleFullRowNoSubCat : Row :=
  [("Customer ID", Cell.str "C1"), ("Customer Name", Cell.str "Alice"),
   ("Segment", Cell.str "Consumer"), ("Country", Cell.str "US"),
   ("City", Cell.str "NY"), ("State", Cell.str "NY"),
   ("Postal Code", Cell.str "1"), ("Region", Cell.str "East"),
   ("Product ID", Cell.str "P1"), ("Product Name", Cell.str "Pen"),
   ("Category", Cell.str "Office"),
   ("Order ID", Cell.str "O1"), ("Order Date", Cell.str "2023-03-05"),
   ("Ship Date", Cell.str "2023-03-07"), ("Ship Mode", Cell.str "Standard"),
   ("Sales", Cell.str "10"), ("Order_Year", Cell.str "2023"),
   ("Order_Month", Cell.str "3"), ("Order_Day", Cell.str "5"),
   ("Order_Weekday", Cell.str "6"), ("Shipping_Delay", Cell.str "2"),
   ("Log_Sales", Cell.str "1"), ("Scaled_Sales", Cell.str "0.5")]

/-- A relation with every required column except `Sub-Category`. -/
def sampleNoSubCatDf : DataFrame :=
  ⟨["Customer ID", "Customer Name", "Segment", "Country", "City", "State",
    "Postal Code", "Region", "Product ID", "Product Name", "Category",
    "Order ID", "Order Date", "Ship Date", "Ship Mode", "Sales",
    "Order_Year", "Order_Month", "Order_Day", "Order_Weekday",
    "Shipping_Delay", "Log_Sales", "Scaled_Sales"],
   [sampleFullRowNoSubCat]⟩

/-- C6 counterexample: on the claim's own scenario (everything present but
`Sub-Category`), the product-dimension failure is the generic message,
which does not name `Sub-Category` — there is no SchemaMismatch listing
the missing column. -/
theorem claim_C6_failure_isolation_counterexample :
    scriptProducts (runScript sampleNoSubCatDf)
      = some (Except.error (TableError.genericMissing "products")) ∧
    (TableError.genericMissing "products").namesCols = false := by
  exact ⟨by decide, rfl⟩

/-- C6 witness: on `sampleNoSubCatDf` the product dimension fails while
the other three tables are still constructed. -/
theorem claim_C6_failure_isolation_witness :
    scriptCustomersOk (runScript sampleNoSubCatDf) = true ∧
    scriptProducts (runScript sampleNoSubCatDf)
      = some (Except.error (TableError.genericMissing "products")) ∧
    scriptShipModesOk (runScript sampleNoSubCatDf) = true ∧
    scriptFactOk (runScript sampleNoSubCatDf) = true :=
  claim_C6_failure_isolation sampleNoSubCatDf (by decide) (by decide)
    (by decide) (by decide)

/-! ### Loader warning and missing date columns (C8, C9) -/

/-- The warning component of a load outcome. -/
def loadWarning : LoadResult → Option String
  | LoadResult.loaded _ w => w
  | LoadResult.exited => none

/-- The returned rows of a load outcome. -/
def loadRows : LoadResult → List Row
  | LoadResult.loaded df _ => df.rows
  | LoadResult.exited => []

/-- Number of rows in which either date is missing after coercion. -/
def missingDateCount (rows : List Row) : Nat :=
  (rows.filter (fun r => (Row.get r "Order Date" == Cell.null)
    || (Row.get r "Ship Date" == Cell.null))).length

theorem coerceCol_not_mem (c : String) (df : DataFrame)
    (h : c ∉ df.cols) : coerceCol c df = df := by
  unfold coerceCol
  rw [if_neg (fun hc => h (List.mem_of_elem_eq_true hc))]

theorem loaded_rows_facts (df df2 : DataFrame) (w : Option String)
    (h1 : "Order Date" ∈ df.cols) (h2 : "Ship Date" ∈ df.cols)
    (hw : loadCheck df = LoadResult.loaded df2 w) :
    df2.rows.length = df.rows.length ∧
    (∀ i : Nat, df2.rows[i]?.map (fun r => Row.get r "Order Date")
        = df.rows[i]?.map (fun r => coerceCell (Row.get r "Order Date"))) ∧
    (∀ i : Nat, df2.rows[i]?.map (fun r => Row.get r "Ship Date")
        = df.rows[i]?.map (fun r => coerceCell (Row.get r "Ship Date"))) := by
  have hdf2 := loadCheck_loaded_df df df2 w hw
  have hrows : df2.rows
      = (df.rows.map (fun r =>
          r.map (fun p => if p.1 = "Order Date" then (p.1, coerceCell p.2) else p))).map
        (fun r =>
          r.map (fun p => if p.1 = "Ship Date" then (p.1, coerceCell p.2) else p)) := by
    rw [hdf2, coerceCol_rows_of_mem "Ship Date" _ ?_,
        coerceCol_rows_of_mem "Order Date" _ (List.elem_eq_true_of_mem h1)]
    rw [coerceCol_cols]
    exact List.elem_eq_true_of_mem h2
  refine ⟨by rw [hrows]; simp, ?_, ?_⟩
  · intro i
    rw [hrows, List.getElem?_map, List.getElem?_map]
    cases df.rows[i]? with
    | none => rfl
    | some r =>
      simp only [Option.map_some']
      rw [coerceRow_get, if_neg (by decide), coerceRow_get, if_pos rfl]
  · intro i
    rw [hrows, List.getElem?_map, List.getElem?_map]
    cases df.rows[i]? with
    | none => rfl
    | some r =>
      simp only [Option.map_some']
      rw [coerceRow_get, if_pos rfl, coerceRow_get, if_neg (by decide)]

/-- Loader contract after date coercion: the loader never exits on
coercion failures, returns the full relation with failed cells coerced to
null, and warns — with the single fixed message, carrying no counts —
exactly when some returned row has a missing date. -/
def loaderContract (df : DataFrame) : Prop :=
  loadCheck df ≠ LoadResult.exited ∧
  (loadRows (loadCheck df)).length = df.rows.length ∧
  (∀ i : Nat, (loadRows (loadCheck df))[i]?.map (fun r => Row.get r "Order Date")
      = df.rows[i]?.map (fun r => coerceCell (Row.get r "Order Date"))) ∧
  (∀ i : Nat, (loadRows (loadCheck df))[i]?.map (fun r => Row.get r "Ship Date")
      = df.rows[i]?.map (fun r => coerceCell (Row.get r "Ship Date"))) ∧
  (loadWarning (loadCheck df) = some coercionWarning ↔
    0 < missingDateCount (loadRows (loadCheck df))) ∧
  (loadWarning (loadCheck df) = none ∨
    loadWarning (loadCheck df) = some coercionWarning)

/-- C8 (amended): with both date columns present, values failing coercion
become null rather than raising, the full relation is returned, and a
non-fatal warning is emitted when either date is missing in some row —
but it is one fixed sentence, not a listing of counts. -/
theorem claim_C8_coercion_warning (df : DataFrame)
    (h1 : "Order Date" ∈ df.cols) (h2 : "Ship Date" ∈ df.cols) :
    loaderContract df := by
  have hc1 : (coerceCol "Ship Date" (coerceCol "Order Date" df)).cols.contains
      "Order Date" = true := by
    rw [coerceCol_cols, coerceCol_cols]
    exact List.elem_eq_true_of_mem h1
  have hc2 : (coerceCol "Ship Date" (coerceCol "Order Date" df)).cols.contains
      "Ship Date" = true := by
    rw [coerceCol_cols, coerceCol_cols]
    exact List.elem_eq_true_of_mem h2
  cases hA1 : (coerceCol "Ship Date" (coerceCol "Order Date" df)).rows.any
      (fun r => Row.get r "Order Date" == Cell.null) with
  | true =>
    have hw : loadCheck df = LoadResult.loaded
        (coerceCol "Ship Date" (coerceCol "Order Date" df)) (some coercionWarning) := by
      simp only [loadCheck, colIsnullAny]
      rw [if_pos hc1, hA1]
    obtain ⟨hlen, hOD, hSD⟩ := loaded_rows_facts df _ _ h1 h2 hw
    obtain ⟨r0, hr0, hp0⟩ := List.any_eq_true.mp hA1
    have hpos : 0 < missingDateCount
        (coerceCol "Ship Date" (coerceCol "Order Date" df)).rows := by
      apply List.length_pos.mpr
      apply List.ne_nil_of_mem
      refine List.mem_filter.mpr ⟨hr0, ?_⟩
      rw [hp0]
      rfl
    rw [loaderContract, hw]
    exact ⟨fun h => LoadResult.noConfusion h, hlen, hOD, hSD,
      iff_of_true rfl hpos, Or.inr rfl⟩
  | false =>
    cases hA2 : (coerceCol "Ship Date" (coerceCol "Order Date" df)).rows.any
        (fun r => Row.get r "Ship Date" == Cell.null) with
    | true =>
      have hw : loadCheck df = LoadResult.loaded
          (coerceCol "Ship Date" (coerceCol "Order Date" df)) (some coercionWarning) := by
        simp only [loadCheck, colIsnullAny]
        rw [if_pos hc1, hA1, if_pos hc2, hA2]
      obtain ⟨hlen, hOD, hSD⟩ := loaded_rows_facts df _ _ h1 h2 hw
      obtain ⟨r0, hr0, hp0⟩ := List.any_eq_true.mp hA2
      have hpos : 0 < missingDateCount
          (coerceCol "Ship Date" (coerceCol "Order Date" df)).rows := by
        apply List.length_pos.mpr
        apply List.ne_nil_of_mem
        refine List.mem_filter.mpr ⟨hr0, ?_⟩
        rw [hp0]
        simp
      rw [loaderContract, hw]
      exact ⟨fun h => LoadResult.noConfusion h, hlen, hOD, hSD,
        iff_of_true rfl hpos, Or.inr rfl⟩
    | false =>
      have hw : loadCheck df = LoadResult.loaded
          (coerceCol "Ship Date" (coerceCol "Order Date" df)) none := by
        simp only [loadCheck, colIsnullAny]
        rw [if_pos hc1, hA1, if_pos hc2, hA2]
      obtain ⟨hlen, hOD, hSD⟩ := loaded_rows_facts df _ _ h1 h2 hw
      have hzero : missingDateCount
          (coerceCol "Ship Date" (coerceCol "Order Date" df)).rows = 0 := by
        unfold missingDateCount
        rw [List.length_eq_zero]
        rw [List.filter_eq_nil_iff]
        intro r hr
        have e1 := List.any_eq_false.mp hA1 r hr
        have e2 := List.any_eq_false.mp hA2 r hr
        simp only [Bool.not_eq_true] at e1 e2
        rw [e1, e2]
        simp
      rw [loaderContract, hw]
      refine ⟨fun h => LoadResult.noConfusion h, hlen, hOD, hSD,
        iff_of_false (by simp [loadWarning]) ?_, Or.inl rfl⟩
      rw [loadRows, hzero]
      simp

/-- One row whose `Order Date` fails coercion. -/
def badDateDf1 : DataFrame :=
  ⟨["Order Date", "Ship Date"],
   [[("Order Date", Cell.str "bad"), ("Ship Date", Cell.str "2023-03-05")]]⟩

/-- Two rows with unparseable dates. -/
def badDateDf2 : DataFrame :=
  ⟨["Order Date", "Ship Date"],
   [[("Order Date", Cell.str "bad"), ("Ship Date", Cell.str "bad")],
    [("Order Date", Cell.str "oops"), ("Ship Date", Cell.str "2023-03-05")]]⟩

/-- C8 counterexample: relations with one and with two rows of missing
dates get the identical fixed warning string — the warning lists no
counts. -/
theorem claim_C8_coercion_warning_counterexample :
    loadWarning (loadCheck badDateDf1) = some coercionWarning ∧
    loadWarning (loadCheck badDateDf2) = some coercionWarning ∧
    missingDateCount (loadRows (loadCheck badDateDf1)) = 1 ∧
    missingDateCount (loadRows (loadCheck badDateDf2)) = 2 := by
  exact ⟨by decide, by decide, by decide, by decide⟩

/-- C8 witness: the loader contract on `badDateDf1`. -/
theorem claim_C8_coercion_warning_witness : loaderContract badDateDf1 :=
  claim_C8_coercion_warning badDateDf1 (by decide) (by decide)

/-- C9 (amended): a missing `Order Date` column makes the whole run exit
during loading; a missing `Ship Date` column does so only when the
(present) `Order Date` column contains no null after coercion — the
short-circuiting null check never touches `Ship Date` otherwise, and the
run continues. -/
theorem claim_C9_missing_date_fatal (df : DataFrame) :
    ("Order Date" ∉ df.cols → runScript df = ScriptResult.exited) ∧
    ("Order Date" ∈ df.cols → "Ship Date" ∉ df.cols →
      (runScript df = ScriptResult.exited ↔
        (coerceCol "Order Date" df).rows.all
          (fun r => !(Row.get r "Order Date" == Cell.null)) = true)) := by
  constructor
  · intro h
    have hcond : ¬ ((coerceCol "Ship Date" (coerceCol "Order Date" df)).cols.contains
        "Order Date" = true) := by
      rw [coerceCol_cols, coerceCol_cols, contains_eq_false_of_not_mem _ _ h]
      exact fun h2 => Bool.noConfusion h2
    have hload : loadCheck df = LoadResult.exited := by
      simp only [loadCheck, colIsnullAny]
      rw [if_neg hcond]
    exact runScript_eq_exited df hload
  · intro h1 h2
    have hship : coerceCol "Ship Date" (coerceCol "Order Date" df)
        = coerceCol "Order Date" df :=
      coerceCol_not_mem "Ship Date" _ (by rw [coerceCol_cols]; exact h2)
    have hc1 : (coerceCol "Order Date" df).cols.contains "Order Date" = true := by
      rw [coerceCol_cols]
      exact List.elem_eq_true_of_mem h1
    cases hA : (coerceCol "Order Date" df).rows.any
        (fun r => Row.get r "Order Date" == Cell.null) with
    | true =>
      have hload : loadCheck df = LoadResult.loaded (coerceCol "Order Date" df)
          (some coercionWarning) := by
        simp only [loadCheck, colIsnullAny]
        rw [hship, if_pos hc1, hA]
      rw [runScript_eq df _ _ hload]
      refine iff_of_false (fun hE => ScriptResult.noConfusion hE) ?_
      intro hall
      obtain ⟨r0, hr0, hp0⟩ := List.any_eq_true.mp hA
      have := List.all_eq_true.mp hall r0 hr0
      rw [hp0] at this
      cases this
    | false =>
      have hcond2 : ¬ ((coerceCol "Order Date" df).cols.contains "Ship Date" = true) := by
        rw [coerceCol_cols, contains_eq_false_of_not_mem _ _ h2]
        exact fun hq => Bool.noConfusion hq
      have hload : loadCheck df = LoadResult.exited := by
        simp only [loadCheck, colIsnullAny]
        rw [hship, if_pos hc1, hA, if_neg hcond2]
      refine iff_of_true (runScript_eq_exited df hload) ?_
      rw [List.all_eq_true]
      intro r hr
      have := List.any_eq_false.mp hA r hr
      simp only [Bool.not_eq_true] at this
      rw [this]
      rfl

/-- A relation with an `Order Date` column holding an unparseable value
and no `Ship Date` column. -/
def noShipDateDf : DataFrame :=
  ⟨["Order Date"], [[("Order Date", Cell.str "bad")]]⟩

/-- A relation with a `Ship Date` column but no `Order Date` column. -/
def noOrderDateDf : DataFrame :=
  ⟨["Ship Date"], [[("Ship Date", Cell.str "2023-03-05")]]⟩

/-- C9 counterexample: `noShipDateDf` lacks the `Ship Date` column, yet
the run does not terminate during loading — the short-circuited null
check never raises, and table processing is attempted. -/
theorem claim_C9_missing_date_fatal_counterexample :
    runScript noShipDateDf ≠ ScriptResult.exited := by decide

/-- C9 witness: a relation missing `Order Date` makes the run exit. -/
theorem claim_C9_missing_date_fatal_witness :
    runScript noOrderDateDf = ScriptResult.exited :=
  (claim_C9_missing_date_fatal noOrderDateDf).1 (by decide)

end SuperStore
